import Mathlib

/-!
Verification of the Hadoop lzfse JNI bridge
(`LzfseCompressor.c`, `LzfseDecompressor.c`).

The two C files are shallowly embedded below.  Machine integers are
modelled by `Nat`/`Int` with explicit two's-complement reductions:
`jint`/`jsize` is a 32-bit signed integer, `size_t` a 64-bit unsigned
integer.  The JNI environment (direct buffers, field reads), the dynamic
linker (`dlopen`, `dlsym`, `dladdr`, `dlerror`) and the foreign lzfse
entry points are modelled by an explicit environment record `SysEnv`;
the C statics of each file become a `…Globals` record, and the Java
object's fields a `…Obj` record.  Each JNI function becomes a pure Lean
function from environment and state to an outcome plus the updated
state and a trace of the dynamic-linker / foreign calls it performed.
-/

namespace LzfseBridge

/-- A byte, as stored in a direct buffer. -/
abbrev Byte := Nat

/-- An opaque foreign function pointer (the value stored in the C statics
`dlsym_lzfse_encode_buffer` / `dlsym_lzfse_decode_buffer`). -/
abbrev FnPtr := Nat

/-- An opaque library handle as returned by `dlopen`. -/
abbrev LibHandle := Nat

/-- An opaque JNI field identifier as returned by `GetFieldID`. -/
abbrev JFieldID := Nat

/-- The build-time configured shared-library name substituted for the
`HADOOP_LZFSE_LIBRARY` macro. -/
def HADOOP_LZFSE_LIBRARY : String := "liblzfse.so"

/-- A direct NIO buffer: a raw address plus the bytes stored at it.
`GetDirectBufferAddress` returns `addr`; the foreign code reads and
writes `data`. -/
structure DirectBuffer where
  addr : Nat
  data : List Byte
deriving Repr, DecidableEq

/-- The system environment the two C files interact with: the dynamic
linker and the semantics of foreign function pointers.  `call p src cap`
is the behaviour of the foreign function at pointer `p` when handed a
source view consisting of the bytes `src` and a destination capacity
`cap`: it yields the bytes it writes at the start of the destination
buffer and its raw `size_t` return value. -/
structure SysEnv where
  dlopen : String → Option LibHandle
  dlerrorMsg : String
  dlsym : LibHandle → String → Option FnPtr
  dladdr : FnPtr → Option String
  getFieldID : String → String → Option JFieldID
  call : FnPtr → List Byte → Nat → List Byte × Nat

/-- Outcome of a JNI call: a normal return, a pending Java exception
(class name and message) raised via `THROW`, or undefined behaviour
(calling through a `NULL` function pointer). -/
inductive JniOutcome (α : Type) where
  | ok (v : α)
  | thrown (exClass : String) (msg : String)
  | crash
deriving Repr, DecidableEq

/-- The C cast `(jsize) n` of a `size_t` value `n`: reduce modulo `2^32`
and reinterpret as a 32-bit signed integer. -/
def jintOfNat (n : Nat) : Int :=
  let m : Nat := n % 2 ^ 32
  if m < 2 ^ 31 then (m : Int) else (m : Int) - 2 ^ 32

/-- The C cast `(size_t) i` of a `jint` value `i`: two's-complement
reduction into `[0, 2^64)`. -/
def sizeTOfJint (i : Int) : Nat := (i % (2 : Int) ^ 64).toNat

/-- The file statics of `LzfseCompressor.c`: the resolved foreign
encode pointer and the three cached JNI field identifiers. -/
structure CompressorGlobals where
  dlsym_lzfse_encode_buffer : Option FnPtr
  uncompressedBufferID : Option JFieldID
  compressedBufferID : Option JFieldID
  internalBufferSizeID : Option JFieldID
deriving Repr, DecidableEq

/-- The file statics of `LzfseDecompressor.c`. -/
structure DecompressorGlobals where
  dlsym_lzfse_decode_buffer : Option FnPtr
  compressedBufferID : Option JFieldID
  decompressedBufferID : Option JFieldID
  internalBufferSizeID : Option JFieldID
deriving Repr, DecidableEq

/-- The Java-side fields of an `LzfseCompressor` object read through JNI:
two direct buffers and the `internalBufferSize` `jint` field. -/
structure CompressorObj where
  uncompressedBuffer : DirectBuffer
  compressedBuffer : DirectBuffer
  internalBufferSize : Int
deriving Repr, DecidableEq

/-- The Java-side fields of an `LzfseDecompressor` object. -/
structure DecompressorObj where
  compressedBuffer : DirectBuffer
  decompressedBuffer : DirectBuffer
  internalBufferSize : Int
deriving Repr, DecidableEq

/-- A record of one invocation of a foreign entry point, with the
argument tuple in the order the C call site passes it:
`fn(dstAddr, dstLen, srcAddr, srcLen, ctx)`. -/
structure FfiCall where
  fn : FnPtr
  dstAddr : Nat
  dstLen : Nat
  srcAddr : Nat
  srcLen : Nat
  ctxIsNull : Bool
deriving Repr, DecidableEq

/-- Result of `compressBytesDirect`: the JNI outcome, the object state
after the foreign call wrote into the compressed buffer, the (unchanged)
file statics, and the trace of foreign calls made. -/
structure CompressResult where
  outcome : JniOutcome Int
  obj : CompressorObj
  g : CompressorGlobals
  calls : List FfiCall

/-- Result of `decompressBytesDirect`. -/
structure DecompressResult where
  outcome : JniOutcome Int
  obj : DecompressorObj
  g : DecompressorGlobals
  calls : List FfiCall

/-- Result of an `initIDs` call: outcome, statics after the call, and
the names passed to `dlopen` and `dlsym` during the call. -/
structure InitResult (G : Type) where
  outcome : JniOutcome Unit
  g : G
  opens : List String
  resolves : List String

/-- Modelled from the spec: Hadoop's `LOAD_DYNAMIC_SYMBOL`/`do_dlsym`
helper (declared in `org_apache_hadoop.h`, not part of this source
tree) resolves one named entry point with `dlsym` and, when the symbol
is missing, pends a `java/lang/UnsatisfiedLinkError` — the spec's
`SymbolResolutionError` — and makes the enclosing function return at
once, after having stored the `NULL` result in the target static. -/
def symbolResolutionError (symbol : String) : JniOutcome Unit :=
  .thrown "java/lang/UnsatisfiedLinkError" ("Failed to load " ++ symbol)

/-- `Java_org_apache_hadoop_io_compress_lzfse_LzfseCompressor_initIDs`:
`dlopen` the configured library (failure pends an
`UnsatisfiedLinkError` built by `snprintf` from the `dlerror`
diagnostic), resolve `lzfse_encode_buffer` with `LOAD_DYNAMIC_SYMBOL`,
then cache the three field identifiers. -/
def LzfseCompressor_initIDs (env : SysEnv) (g : CompressorGlobals) :
    InitResult CompressorGlobals :=
  match env.dlopen HADOOP_LZFSE_LIBRARY with
  | none =>
      { outcome := .thrown "java/lang/UnsatisfiedLinkError"
          ("Cannot load " ++ HADOOP_LZFSE_LIBRARY ++ " (" ++ env.dlerrorMsg ++ ")!")
        g := g
        opens := [HADOOP_LZFSE_LIBRARY]
        resolves := [] }
  | some liblzfse =>
      match env.dlsym liblzfse "lzfse_encode_buffer" with
      | none =>
          { outcome := symbolResolutionError "lzfse_encode_buffer"
            g := { g with dlsym_lzfse_encode_buffer := none }
            opens := [HADOOP_LZFSE_LIBRARY]
            resolves := ["lzfse_encode_buffer"] }
      | some p =>
          { outcome := .ok ()
            g := { dlsym_lzfse_encode_buffer := some p
                   uncompressedBufferID :=
                     env.getFieldID "uncompressedBuffer" "Ljava/nio/Buffer;"
                   compressedBufferID :=
                     env.getFieldID "compressedBuffer" "Ljava/nio/Buffer;"
                   internalBufferSizeID :=
                     env.getFieldID "internalBufferSize" "I" }
            opens := [HADOOP_LZFSE_LIBRARY]
            resolves := ["lzfse_encode_buffer"] }

/-- `Java_org_apache_hadoop_io_compress_lzfse_LzfseDecompressor_initIDs`:
identical shape, resolving `lzfse_decode_buffer`. -/
def LzfseDecompressor_initIDs (env : SysEnv) (g : DecompressorGlobals) :
    InitResult DecompressorGlobals :=
  match env.dlopen HADOOP_LZFSE_LIBRARY with
  | none =>
      { outcome := .thrown "java/lang/UnsatisfiedLinkError"
          ("Cannot load " ++ HADOOP_LZFSE_LIBRARY ++ " (" ++ env.dlerrorMsg ++ ")!")
        g := g
        opens := [HADOOP_LZFSE_LIBRARY]
        resolves := [] }
  | some liblzfse =>
      match env.dlsym liblzfse "lzfse_decode_buffer" with
      | none =>
          { outcome := symbolResolutionError "lzfse_decode_buffer"
            g := { g with dlsym_lzfse_decode_buffer := none }
            opens := [HADOOP_LZFSE_LIBRARY]
            resolves := ["lzfse_decode_buffer"] }
      | some p =>
          { outcome := .ok ()
            g := { dlsym_lzfse_decode_buffer := some p
                   compressedBufferID :=
                     env.getFieldID "compressedBuffer" "Ljava/nio/Buffer;"
                   decompressedBufferID :=
                     env.getFieldID "decompressedBuffer" "Ljava/nio/Buffer;"
                   internalBufferSizeID :=
                     env.getFieldID "internalBufferSize" "I" }
            opens := [HADOOP_LZFSE_LIBRARY]
            resolves := ["lzfse_decode_buffer"] }

/-- `Java_org_apache_hadoop_io_compress_lzfse_LzfseCompressor_compressBytesDirect`:
read the two buffers and the `internalBufferSize` field, call the
resolved encode pointer as
`fn(dst_buffer, dst_size, src_buffer, src_size, NULL)`, cast the
`size_t` return to `jsize`, and pend `InternalError` when the cast
result is `0` with a nonzero source size.  The foreign call overwrites
the first `out.length` bytes of the compressed buffer. -/
def compressBytesDirect (env : SysEnv) (g : CompressorGlobals)
    (obj : CompressorObj) (size : Int) : CompressResult :=
  match g.dlsym_lzfse_encode_buffer with
  | none => { outcome := .crash, obj := obj, g := g, calls := [] }
  | some p =>
      let src_size : Nat := sizeTOfJint size
      let dst_size : Nat := sizeTOfJint obj.internalBufferSize
      let res := env.call p (obj.uncompressedBuffer.data.take src_size) dst_size
      let encoded : Int := jintOfNat res.2
      let obj' : CompressorObj :=
        { obj with compressedBuffer :=
            { obj.compressedBuffer with data :=
                res.1 ++ obj.compressedBuffer.data.drop res.1.length } }
      let callRec : FfiCall :=
        { fn := p
          dstAddr := obj.compressedBuffer.addr
          dstLen := dst_size
          srcAddr := obj.uncompressedBuffer.addr
          srcLen := src_size
          ctxIsNull := true }
      { outcome :=
          if encoded = 0 ∧ src_size ≠ 0 then
            .thrown "java/lang/InternalError" "lzfse_encode_buffer failed"
          else .ok encoded
        obj := obj', g := g, calls := [callRec] }

/-- `Java_org_apache_hadoop_io_compress_lzfse_LzfseDecompressor_decompressBytesDirect`:
symmetric, calling the resolved decode pointer; note that the error
message in the decompressor source is also the string
"lzfse\x5fencode\x5fbuffer failed". -/
def decompressBytesDirect (env : SysEnv) (g : DecompressorGlobals)
    (obj : DecompressorObj) (size : Int) : DecompressResult :=
  match g.dlsym_lzfse_decode_buffer with
  | none => { outcome := .crash, obj := obj, g := g, calls := [] }
  | some p =>
      let src_size : Nat := sizeTOfJint size
      let dst_size : Nat := sizeTOfJint obj.internalBufferSize
      let res := env.call p (obj.compressedBuffer.data.take src_size) dst_size
      let decoded : Int := jintOfNat res.2
      let obj' : DecompressorObj :=
        { obj with decompressedBuffer :=
            { obj.decompressedBuffer with data :=
                res.1 ++ obj.decompressedBuffer.data.drop res.1.length } }
      let callRec : FfiCall :=
        { fn := p
          dstAddr := obj.decompressedBuffer.addr
          dstLen := dst_size
          srcAddr := obj.compressedBuffer.addr
          srcLen := src_size
          ctxIsNull := true }
      { outcome :=
          if decoded = 0 ∧ src_size ≠ 0 then
            .thrown "java/lang/InternalError" "lzfse_encode_buffer failed"
          else .ok decoded
        obj := obj', g := g, calls := [callRec] }

/-- `Java_org_apache_hadoop_io_compress_lzfse_LzfseCompressor_getLibraryName`:
if the encode pointer is resolved and `dladdr` attributes it to a
shared object, return that object's file name, else return the
configured library name.  The function contains no `THROW`. -/
def getLibraryName (env : SysEnv) (g : CompressorGlobals) :
    JniOutcome String :=
  match g.dlsym_lzfse_encode_buffer with
  | some p =>
      match env.dladdr p with
      | some fname => .ok fname
      | none => .ok HADOOP_LZFSE_LIBRARY
  | none => .ok HADOOP_LZFSE_LIBRARY

/-- The whole initialization of the bridge: the static initializers of
the two Java classes run the two `initIDs` functions, together opening
the library and resolving both entry points. -/
def initAll (env : SysEnv) (gc : CompressorGlobals) (gd : DecompressorGlobals) :
    InitResult CompressorGlobals × InitResult DecompressorGlobals :=
  (LzfseCompressor_initIDs env gc, LzfseDecompressor_initIDs env gd)

/-! ### Arithmetic lemmas about the machine-integer casts -/

theorem jintOfNat_of_lt {n : Nat} (h : n < 2 ^ 31) : jintOfNat n = n := by
  have h32 : n % 2 ^ 32 = n := Nat.mod_eq_of_lt (lt_trans h (by norm_num))
  simp only [jintOfNat, h32]
  rw [if_pos h]

theorem jintOfNat_eq_zero_iff {n : Nat} (h : n < 2 ^ 31) :
    jintOfNat n = 0 ↔ n = 0 := by
  rw [jintOfNat_of_lt h]
  exact_mod_cast Iff.rfl

theorem sizeTOfJint_of_nonneg {i : Int} (h0 : 0 ≤ i) (h : i < 2 ^ 31) :
    sizeTOfJint i = i.toNat := by
  unfold sizeTOfJint
  omega

theorem sizeTOfJint_eq_zero_iff {i : Int} (hlo : -(2 ^ 31) ≤ i) (hhi : i < 2 ^ 31) :
    sizeTOfJint i = 0 ↔ i = 0 := by
  unfold sizeTOfJint
  omega

theorem sizeTOfJint_natCast {n : Nat} (h : n < 2 ^ 31) :
    sizeTOfJint (n : Int) = n := by
  unfold sizeTOfJint
  omega

/-! ### Abbreviations for the raw foreign return values -/

/-- The raw `size_t` value returned by the foreign encode call that
`compressBytesDirect` performs when the resolved pointer is `p`. -/
def encRet (env : SysEnv) (p : FnPtr) (obj : CompressorObj) (size : Int) : Nat :=
  (env.call p (obj.uncompressedBuffer.data.take (sizeTOfJint size))
    (sizeTOfJint obj.internalBufferSize)).2

/-- The raw `size_t` value returned by the foreign decode call that
`decompressBytesDirect` performs when the resolved pointer is `p`. -/
def decRet (env : SysEnv) (p : FnPtr) (obj : DecompressorObj) (size : Int) : Nat :=
  (env.call p (obj.compressedBuffer.data.take (sizeTOfJint size))
    (sizeTOfJint obj.internalBufferSize)).2

/-! ### Concrete instances used to evaluate the bridge -/

/-- A concrete environment: every library is present, both symbols
resolve, `dladdr` attributes every pointer to a fixed file, and the
foreign functions at every pointer behave as the copy codec. -/
def idEnv : SysEnv :=
  { dlopen := fun _ => some 1
    dlerrorMsg := "file exists"
    dlsym := fun _ s => if s = "lzfse_encode_buffer" then some 2 else some 3
    dladdr := fun _ => some "/usr/lib/liblzfse.so.1"
    getFieldID := fun _ _ => some 5
    call := fun _ src _ => (src, src.length) }

/-- A variant of `idEnv` whose foreign functions always return `0`
without writing anything (the failure convention). -/
def zeroRetEnv : SysEnv := { idEnv with call := fun _ _ _ => ([], 0) }

/-- A variant of `idEnv` whose foreign functions report `37` bytes
written whatever the destination capacity is. -/
def bigRetEnv : SysEnv := { idEnv with call := fun _ _ _ => ([1, 2, 3], 37) }

/-- A variant of `idEnv` in which the library cannot be opened. -/
def noLibEnv : SysEnv := { idEnv with dlopen := fun _ => none }

/-- A variant of `idEnv` in which only `lzfse_encode_buffer` resolves. -/
def noDecodeEnv : SysEnv :=
  { idEnv with dlsym := fun _ s => if s = "lzfse_encode_buffer" then some 2 else none }

/-- Compressor statics after a successful load under `idEnv`. -/
def gcW : CompressorGlobals := ⟨some 2, some 5, some 5, some 5⟩

/-- Decompressor statics after a successful load under `idEnv`. -/
def gdW : DecompressorGlobals := ⟨some 3, some 5, some 5, some 5⟩

/-- Compressor statics before any load. -/
def gcNone : CompressorGlobals := ⟨none, none, none, none⟩

/-- A concrete compressor object: 3 source bytes, a destination buffer
whose stored contents are 5 bytes long while the declared
`internalBufferSize` capacity is 8. -/
def objcW : CompressorObj := ⟨⟨100, [65, 65, 65]⟩, ⟨200, [0, 0, 0, 0, 0]⟩, 8⟩

/-- A concrete decompressor object of the same shape. -/
def objdW : DecompressorObj := ⟨⟨300, [65, 65, 65, 9, 9]⟩, ⟨400, [0, 0, 0, 0, 0]⟩, 8⟩

/-- A variant of `idEnv` whose foreign functions obey the write-bound
contract: they never report more than the destination capacity. -/
def cappedEnv : SysEnv :=
  { idEnv with call := fun _ src cap => (src.take cap, min src.length cap) }

/-- An `if`-selected outcome is an exception exactly when the guard
holds. -/
theorem thrown_if_iff (cond : Prop) [Decidable cond] (c₀ m₀ : String) (v : Int) :
    (∃ c m, (if cond then JniOutcome.thrown c₀ m₀ else JniOutcome.ok v) =
      JniOutcome.thrown c m) ↔ cond := by
  split_ifs with h <;> simp [h]

/-! ### Claims -/

/-- C10: neither `compressBytesDirect` nor `decompressBytesDirect`
modifies the file statics (the resolved foreign pointer and the cached
field identifiers): after any such call, succeeding or throwing, the
statics are exactly what they were before; only `initIDs` writes them. -/
theorem c10_frame (env : SysEnv) (gc : CompressorGlobals) (gd : DecompressorGlobals)
    (objc : CompressorObj) (objd : DecompressorObj) (size : Int) :
    (compressBytesDirect env gc objc size).g = gc ∧
    (decompressBytesDirect env gd objd size).g = gd := by
  constructor
  · unfold compressBytesDirect
    cases gc.dlsym_lzfse_encode_buffer <;> rfl
  · unfold decompressBytesDirect
    cases gd.dlsym_lzfse_decode_buffer <;> rfl

/-- C9: whenever `decompressBytesDirect` pends an exception, that
exception is a `java/lang/InternalError` whose message is the string
"lzfse\x5fencode\x5fbuffer failed" — naming the encode entry point,
although the call that failed is the decode one. -/
theorem c9_decompress_error_message (env : SysEnv) (gd : DecompressorGlobals)
    (objd : DecompressorObj) (size : Int) (c m : String)
    (h : (decompressBytesDirect env gd objd size).outcome = .thrown c m) :
    c = "java/lang/InternalError" ∧ m = "lzfse_encode_buffer failed" := by
  unfold decompressBytesDirect at h
  cases hd : gd.dlsym_lzfse_decode_buffer with
  | none => rw [hd] at h; cases h
  | some p =>
      rw [hd] at h
      dsimp only at h
      split at h
      · injection h with h1 h2
        exact ⟨h1.symm, h2.symm⟩
      · cases h

/-- Witness for C9: a concrete decode failure (return `0` on a 3-byte
input) carries exactly that class and message. -/
theorem c9_witness :
    "java/lang/InternalError" = "java/lang/InternalError" ∧
    "lzfse_encode_buffer failed" = "lzfse_encode_buffer failed" :=
  c9_decompress_error_message zeroRetEnv gdW objdW 3
    "java/lang/InternalError" "lzfse_encode_buffer failed" (by decide)

/-- C4: each bridge operation invokes the foreign function with the
argument tuple `(dstAddr, dstCapacity, srcAddr, srcLength, NULL ctx)`,
where the source length is the cast of the given `size` argument and the
destination length is the cast of the declared `internalBufferSize`
field — independent of the destination buffer's stored contents. -/
theorem c4_ffi_argument_order (env : SysEnv) (gc : CompressorGlobals)
    (gd : DecompressorGlobals) (objc : CompressorObj) (objd : DecompressorObj)
    (size : Int) (pe pd : FnPtr)
    (hpe : gc.dlsym_lzfse_encode_buffer = some pe)
    (hpd : gd.dlsym_lzfse_decode_buffer = some pd) :
    (compressBytesDirect env gc objc size).calls =
      [{ fn := pe
         dstAddr := objc.compressedBuffer.addr
         dstLen := sizeTOfJint objc.internalBufferSize
         srcAddr := objc.uncompressedBuffer.addr
         srcLen := sizeTOfJint size
         ctxIsNull := true }] ∧
    (decompressBytesDirect env gd objd size).calls =
      [{ fn := pd
         dstAddr := objd.decompressedBuffer.addr
         dstLen := sizeTOfJint objd.internalBufferSize
         srcAddr := objd.compressedBuffer.addr
         srcLen := sizeTOfJint size
         ctxIsNull := true }] := by
  constructor
  · unfold compressBytesDirect
    rw [hpe]
  · unfold decompressBytesDirect
    rw [hpd]

/-- Witness for C4: at the concrete state, the destination length passed
is the declared capacity `8`, not the `5` bytes stored in the
destination buffer. -/
theorem c4_witness :
    (compressBytesDirect idEnv gcW objcW 3).calls =
      [{ fn := 2, dstAddr := 200, dstLen := 8, srcAddr := 100, srcLen := 3,
         ctxIsNull := true }] ∧
    (decompressBytesDirect idEnv gdW objdW 3).calls =
      [{ fn := 3, dstAddr := 400, dstLen := 8, srcAddr := 300, srcLen := 3,
         ctxIsNull := true }] := by
  have h := c4_ffi_argument_order idEnv gcW gdW objcW objdW 3 2 3 rfl rfl
  exact ⟨h.1.trans (by decide), h.2.trans (by decide)⟩

/-- C5: `getLibraryName` never pends an exception; with no resolved
encode pointer it returns the configured library name, and with a
resolved pointer it returns the file that the dynamic linker (`dladdr`)
reports as containing that pointer. -/
theorem c5_library_name (env : SysEnv) (g : CompressorGlobals) :
    (∃ s, getLibraryName env g = .ok s) ∧
    (g.dlsym_lzfse_encode_buffer = none →
      getLibraryName env g = .ok HADOOP_LZFSE_LIBRARY) ∧
    (∀ p path, g.dlsym_lzfse_encode_buffer = some p →
      env.dladdr p = some path → getLibraryName env g = .ok path) := by
  refine ⟨?_, ?_, ?_⟩
  · unfold getLibraryName
    cases g.dlsym_lzfse_encode_buffer with
    | none => exact ⟨HADOOP_LZFSE_LIBRARY, rfl⟩
    | some p =>
        dsimp only
        cases env.dladdr p with
        | none => exact ⟨HADOOP_LZFSE_LIBRARY, rfl⟩
        | some fname => exact ⟨fname, rfl⟩
  · intro hnone
    unfold getLibraryName
    rw [hnone]
  · intro p path hp hpath
    unfold getLibraryName
    rw [hp]
    dsimp only
    rw [hpath]

/-- Witness for C5: concretely, before any load the configured name
comes back, and after the load under `idEnv` the `dladdr`-reported
path comes back. -/
theorem c5_witness :
    getLibraryName idEnv gcNone = .ok HADOOP_LZFSE_LIBRARY ∧
    getLibraryName idEnv gcW = .ok "/usr/lib/liblzfse.so.1" :=
  ⟨(c5_library_name idEnv gcNone).2.1 rfl,
   (c5_library_name idEnv gcW).2.2 2 "/usr/lib/liblzfse.so.1" rfl rfl⟩

/-- C7 counterexample: the claim says that once a handle exists a
further `initIDs` call returns "without repeating the library-open and
symbol-resolve steps".  Concretely, with the encode pointer already
resolved (`gcW`), another `initIDs` call still performs a `dlopen` and
a `dlsym`: its trace of opened names and resolved symbols is nonempty. -/
theorem c7_counterexample :
    gcW.dlsym_lzfse_encode_buffer = some 2 ∧
    (LzfseCompressor_initIDs idEnv gcW).opens = [HADOOP_LZFSE_LIBRARY] ∧
    (LzfseCompressor_initIDs idEnv gcW).resolves = ["lzfse_encode_buffer"] :=
  ⟨rfl, rfl, rfl⟩

/-- C7 (amended): the C `initIDs` functions are unguarded — every call
re-executes the `dlopen` and `dlsym` steps (at-most-once execution is
the Java class initializer's doing, outside these files) — but they are
idempotent on the cached state: under one environment, running `initIDs`
a second time leaves the statics exactly as the first run left them. -/
theorem c7_state_idempotent (env : SysEnv) (gc : CompressorGlobals)
    (gd : DecompressorGlobals) :
    (LzfseCompressor_initIDs env (LzfseCompressor_initIDs env gc).g).g =
      (LzfseCompressor_initIDs env gc).g ∧
    (LzfseDecompressor_initIDs env (LzfseDecompressor_initIDs env gd).g).g =
      (LzfseDecompressor_initIDs env gd).g := by
  constructor
  · unfold LzfseCompressor_initIDs
    cases ho : env.dlopen HADOOP_LZFSE_LIBRARY with
    | none => simp [ho]
    | some h =>
        cases hs : env.dlsym h "lzfse_encode_buffer" with
        | none => simp [ho, hs]
        | some p => simp [ho, hs]
  · unfold LzfseDecompressor_initIDs
    cases ho : env.dlopen HADOOP_LZFSE_LIBRARY with
    | none => simp [ho]
    | some h =>
        cases hs : env.dlsym h "lzfse_decode_buffer" with
        | none => simp [ho, hs]
        | some p => simp [ho, hs]

/-- C1: a bridge operation pends an exception exactly when the foreign
function's raw return value is `0` and the given source length is
nonzero; with a zero source length, a `0` return is a legitimate empty
success returning `0`.  The hypotheses say the resolved pointers exist,
the `jint` size argument is in range, and the foreign return value is
representable as a `jsize` (the foreign contract bounds it by the
destination capacity, itself a `jint`). -/
theorem c1_zero_return_disambiguation
    (env : SysEnv) (gc : CompressorGlobals) (gd : DecompressorGlobals)
    (objc : CompressorObj) (objd : DecompressorObj) (size : Int) (pe pd : FnPtr)
    (hpe : gc.dlsym_lzfse_encode_buffer = some pe)
    (hpd : gd.dlsym_lzfse_decode_buffer = some pd)
    (hlo : -(2 ^ 31) ≤ size) (hhi : size < 2 ^ 31)
    (hret : ∀ q src cap, (env.call q src cap).2 < 2 ^ 31) :
    ((∃ c m, (compressBytesDirect env gc objc size).outcome = .thrown c m) ↔
      encRet env pe objc size = 0 ∧ size ≠ 0) ∧
    ((∃ c m, (decompressBytesDirect env gd objd size).outcome = .thrown c m) ↔
      decRet env pd objd size = 0 ∧ size ≠ 0) ∧
    (size = 0 → encRet env pe objc size = 0 →
      (compressBytesDirect env gc objc size).outcome = .ok 0) ∧
    (size = 0 → decRet env pd objd size = 0 →
      (decompressBytesDirect env gd objd size).outcome = .ok 0) := by
  have hsz : (sizeTOfJint size ≠ 0) ↔ size ≠ 0 :=
    not_congr (sizeTOfJint_eq_zero_iff hlo hhi)
  refine ⟨?_, ?_, ?_, ?_⟩
  · unfold compressBytesDirect
    rw [hpe]
    dsimp only
    rw [thrown_if_iff]
    unfold encRet
    exact and_congr (jintOfNat_eq_zero_iff (hret _ _ _)) hsz
  · unfold decompressBytesDirect
    rw [hpd]
    dsimp only
    rw [thrown_if_iff]
    unfold decRet
    exact and_congr (jintOfNat_eq_zero_iff (hret _ _ _)) hsz
  · intro h0 hr
    subst h0
    unfold compressBytesDirect
    rw [hpe]
    dsimp only
    rw [if_neg (by simp [sizeTOfJint])]
    unfold encRet at hr
    rw [hr]
    decide
  · intro h0 hr
    subst h0
    unfold decompressBytesDirect
    rw [hpd]
    dsimp only
    rw [if_neg (by simp [sizeTOfJint])]
    unfold decRet at hr
    rw [hr]
    decide

/-- Witness for C1: under the always-zero foreign functions, a 3-byte
input makes both operations throw, while a 0-byte input makes both
return `0` without error. -/
theorem c1_witness :
    (∃ c m, (compressBytesDirect zeroRetEnv gcW objcW 3).outcome = .thrown c m) ∧
    (∃ c m, (decompressBytesDirect zeroRetEnv gdW objdW 3).outcome = .thrown c m) ∧
    (compressBytesDirect zeroRetEnv gcW objcW 0).outcome = .ok 0 ∧
    (decompressBytesDirect zeroRetEnv gdW objdW 0).outcome = .ok 0 := by
  have h3 := c1_zero_return_disambiguation zeroRetEnv gcW gdW objcW objdW 3 2 3
    rfl rfl (by norm_num) (by norm_num)
    (fun q src cap => by show (0 : Nat) < 2 ^ 31; norm_num)
  have h0 := c1_zero_return_disambiguation zeroRetEnv gcW gdW objcW objdW 0 2 3
    rfl rfl (by norm_num) (by norm_num)
    (fun q src cap => by show (0 : Nat) < 2 ^ 31; norm_num)
  exact ⟨h3.1.mpr ⟨by decide, by norm_num⟩, h3.2.1.mpr ⟨by decide, by norm_num⟩,
    h0.2.2.1 rfl (by decide), h0.2.2.2 rfl (by decide)⟩

/-- C2: a nonzero foreign return (representable as `jsize`) is treated
as success and handed back verbatim as the result length; no hypothesis
relates it to the destination capacity, because the bridge performs no
such check. -/
theorem c2_nonzero_return_verbatim
    (env : SysEnv) (gc : CompressorGlobals) (gd : DecompressorGlobals)
    (objc : CompressorObj) (objd : DecompressorObj) (size : Int) (pe pd : FnPtr)
    (hpe : gc.dlsym_lzfse_encode_buffer = some pe)
    (hpd : gd.dlsym_lzfse_decode_buffer = some pd)
    (hret : ∀ q src cap, (env.call q src cap).2 < 2 ^ 31)
    (hce : encRet env pe objc size ≠ 0) (hcd : decRet env pd objd size ≠ 0) :
    (compressBytesDirect env gc objc size).outcome =
      .ok (encRet env pe objc size : Int) ∧
    (decompressBytesDirect env gd objd size).outcome =
      .ok (decRet env pd objd size : Int) := by
  constructor
  · unfold compressBytesDirect
    rw [hpe]
    dsimp only
    rw [if_neg]
    · rw [jintOfNat_of_lt (hret _ _ _)]
      rfl
    · rintro ⟨h0, -⟩
      apply hce
      unfold encRet
      rw [jintOfNat_of_lt (hret _ _ _)] at h0
      exact_mod_cast h0
  · unfold decompressBytesDirect
    rw [hpd]
    dsimp only
    rw [if_neg]
    · rw [jintOfNat_of_lt (hret _ _ _)]
      rfl
    · rintro ⟨h0, -⟩
      apply hcd
      unfold decRet
      rw [jintOfNat_of_lt (hret _ _ _)] at h0
      exact_mod_cast h0

/-- Witness for C2: foreign functions reporting `37` bytes against a
declared capacity of `8` still yield a successful `37` — the bridge does
not re-check the result against the capacity. -/
theorem c2_witness :
    encRet bigRetEnv 2 objcW 3 = 37 ∧
    (compressBytesDirect bigRetEnv gcW objcW 3).outcome = .ok 37 ∧
    (decompressBytesDirect bigRetEnv gdW objdW 3).outcome = .ok 37 := by
  have h := c2_nonzero_return_verbatim bigRetEnv gcW gdW objcW objdW 3 2 3 rfl rfl
    (fun q src cap => by show (37 : Nat) < 2 ^ 31; norm_num) (by decide) (by decide)
  exact ⟨by decide, h.1.trans (by decide), h.2.trans (by decide)⟩

/-- C6: when the foreign functions obey their contract (reported count
bounded by the destination capacity) and the declared capacity is a
nonnegative `jint`, every successful bridge result is a nonnegative
count at most that declared capacity. -/
theorem c6_result_within_capacity
    (env : SysEnv) (gc : CompressorGlobals) (gd : DecompressorGlobals)
    (objc : CompressorObj) (objd : DecompressorObj) (size : Int)
    (hcontract : ∀ q src cap, (env.call q src cap).2 ≤ cap)
    (hc0 : 0 ≤ objc.internalBufferSize) (hc1 : objc.internalBufferSize < 2 ^ 31)
    (hd0 : 0 ≤ objd.internalBufferSize) (hd1 : objd.internalBufferSize < 2 ^ 31) :
    (∀ v, (compressBytesDirect env gc objc size).outcome = .ok v →
      0 ≤ v ∧ v ≤ objc.internalBufferSize) ∧
    (∀ v, (decompressBytesDirect env gd objd size).outcome = .ok v →
      0 ≤ v ∧ v ≤ objd.internalBufferSize) := by
  constructor
  · intro v hv
    unfold compressBytesDirect at hv
    cases hp : gc.dlsym_lzfse_encode_buffer with
    | none => rw [hp] at hv; cases hv
    | some p =>
        rw [hp] at hv
        dsimp only at hv
        split at hv
        · cases hv
        · injection hv with h1
          subst h1
          rw [sizeTOfJint_of_nonneg hc0 hc1]
          have hr := hcontract p
            (objc.uncompressedBuffer.data.take (sizeTOfJint size))
            objc.internalBufferSize.toNat
          rw [jintOfNat_of_lt (lt_of_le_of_lt hr (by omega))]
          omega
  · intro v hv
    unfold decompressBytesDirect at hv
    cases hp : gd.dlsym_lzfse_decode_buffer with
    | none => rw [hp] at hv; cases hv
    | some p =>
        rw [hp] at hv
        dsimp only at hv
        split at hv
        · cases hv
        · injection hv with h1
          subst h1
          rw [sizeTOfJint_of_nonneg hd0 hd1]
          have hr := hcontract p
            (objd.compressedBuffer.data.take (sizeTOfJint size))
            objd.internalBufferSize.toNat
          rw [jintOfNat_of_lt (lt_of_le_of_lt hr (by omega))]
          omega

/-- Witness for C6: under the capped environment a 3-byte input yields
`3`, which is nonnegative and within the declared capacity `8`. -/
theorem c6_witness :
    (compressBytesDirect cappedEnv gcW objcW 3).outcome = .ok 3 ∧
    (0 ≤ (3 : Int) ∧ (3 : Int) ≤ objcW.internalBufferSize) ∧
    (decompressBytesDirect cappedEnv gdW objdW 3).outcome = .ok 3 ∧
    (0 ≤ (3 : Int) ∧ (3 : Int) ≤ objdW.internalBufferSize) := by
  have h := c6_result_within_capacity cappedEnv gcW gdW objcW objdW 3
    (fun q src cap => Nat.min_le_right _ _)
    (by decide) (by decide) (by decide) (by decide)
  exact ⟨by decide, h.1 3 (by decide), by decide, h.2 3 (by decide)⟩

/-- C3: initialization maps dynamic-linker failures to the typed error
taxonomy: a failed `dlopen` makes either `initIDs` pend an
`UnsatisfiedLinkError` (the spec's LibraryLoadError) whose message
carries the `dlerror` diagnostic; when the open succeeds, the combined
initialization resolves exactly the two entry points
`lzfse_encode_buffer` and `lzfse_decode_buffer`, and a missing symbol
makes the corresponding `initIDs` pend the symbol-resolution error. -/
theorem c3_init_error_mapping (env : SysEnv) (gc : CompressorGlobals)
    (gd : DecompressorGlobals) :
    (env.dlopen HADOOP_LZFSE_LIBRARY = none →
      (LzfseCompressor_initIDs env gc).outcome =
        .thrown "java/lang/UnsatisfiedLinkError"
          ("Cannot load " ++ HADOOP_LZFSE_LIBRARY ++ " (" ++ env.dlerrorMsg ++ ")!") ∧
      (LzfseDecompressor_initIDs env gd).outcome =
        .thrown "java/lang/UnsatisfiedLinkError"
          ("Cannot load " ++ HADOOP_LZFSE_LIBRARY ++ " (" ++ env.dlerrorMsg ++ ")!")) ∧
    (∀ h, env.dlopen HADOOP_LZFSE_LIBRARY = some h →
      ((initAll env gc gd).1.resolves ++ (initAll env gc gd).2.resolves =
        ["lzfse_encode_buffer", "lzfse_decode_buffer"]) ∧
      (env.dlsym h "lzfse_encode_buffer" = none →
        (LzfseCompressor_initIDs env gc).outcome =
          symbolResolutionError "lzfse_encode_buffer") ∧
      (env.dlsym h "lzfse_decode_buffer" = none →
        (LzfseDecompressor_initIDs env gd).outcome =
          symbolResolutionError "lzfse_decode_buffer")) := by
  constructor
  · intro ho
    constructor
    · unfold LzfseCompressor_initIDs
      rw [ho]
    · unfold LzfseDecompressor_initIDs
      rw [ho]
  · intro h ho
    refine ⟨?_, ?_, ?_⟩
    · unfold initAll LzfseCompressor_initIDs LzfseDecompressor_initIDs
      rw [ho]
      dsimp only
      cases hse : env.dlsym h "lzfse_encode_buffer" <;>
        cases hsd : env.dlsym h "lzfse_decode_buffer" <;> rfl
    · intro hs
      unfold LzfseCompressor_initIDs
      rw [ho]
      dsimp only
      rw [hs]
    · intro hs
      unfold LzfseDecompressor_initIDs
      rw [ho]
      dsimp only
      rw [hs]

/-- Witness for C3: a concrete failing `dlopen` carries the diagnostic,
a concrete missing decode symbol yields the resolution error, and a
concrete successful initialization resolves both entry points. -/
theorem c3_witness :
    (LzfseCompressor_initIDs noLibEnv gcNone).outcome =
      .thrown "java/lang/UnsatisfiedLinkError"
        "Cannot load liblzfse.so (file exists)!" ∧
    (LzfseDecompressor_initIDs noDecodeEnv gdW).outcome =
      symbolResolutionError "lzfse_decode_buffer" ∧
    (initAll idEnv gcNone gdW).1.resolves ++ (initAll idEnv gcNone gdW).2.resolves =
      ["lzfse_encode_buffer", "lzfse_decode_buffer"] := by
  refine ⟨?_, ?_, ?_⟩
  · exact ((c3_init_error_mapping noLibEnv gcNone gdW).1 rfl).1.trans (by decide)
  · exact ((c3_init_error_mapping noDecodeEnv gcNone gdW).2 1 rfl).2.2 (by decide)
  · exact ((c3_init_error_mapping idEnv gcNone gdW).2 1 rfl).1

/-- C8: round-trip fidelity at the bridge level.  If the foreign encode
call on the nonempty input `A` writes `C` and reports its nonzero
length `L1`, and the foreign decode call on `C` writes `A` back and
reports `A`'s length, then compressing and then decompressing through
the bridge succeeds with those lengths and leaves `A` at the start of
the destination buffer. -/
theorem c8_roundtrip
    (env : SysEnv) (gc : CompressorGlobals) (gd : DecompressorGlobals)
    (objc : CompressorObj) (objd : DecompressorObj)
    (A C : List Byte) (L1 : Nat) (pe pd : FnPtr)
    (hpe : gc.dlsym_lzfse_encode_buffer = some pe)
    (hpd : gd.dlsym_lzfse_decode_buffer = some pd)
    (hA : A ≠ []) (hAlen : A.length < 2 ^ 31)
    (hsrc : objc.uncompressedBuffer.data = A)
    (henc : env.call pe A (sizeTOfJint objc.internalBufferSize) = (C, L1))
    (hL1 : C.length = L1) (hL1nz : L1 ≠ 0) (hL1b : L1 < 2 ^ 31)
    (hwire : objd.compressedBuffer.data =
      (compressBytesDirect env gc objc (A.length : Int)).obj.compressedBuffer.data)
    (hdec : env.call pd C (sizeTOfJint objd.internalBufferSize) = (A, A.length)) :
    (compressBytesDirect env gc objc (A.length : Int)).outcome = .ok (L1 : Int) ∧
    (decompressBytesDirect env gd objd (L1 : Int)).outcome = .ok (A.length : Int) ∧
    (decompressBytesDirect env gd objd (L1 : Int)).obj.decompressedBuffer.data.take
      A.length = A := by
  have hszA : sizeTOfJint (A.length : Int) = A.length := sizeTOfJint_natCast hAlen
  have hszL : sizeTOfJint (L1 : Int) = L1 := sizeTOfJint_natCast hL1b
  have hAnz : A.length ≠ 0 := by simpa using hA
  have hviewc : objc.uncompressedBuffer.data.take (sizeTOfJint (A.length : Int)) = A := by
    rw [hszA, hsrc, List.take_length]
  have hcdata :
      (compressBytesDirect env gc objc (A.length : Int)).obj.compressedBuffer.data =
        C ++ objc.compressedBuffer.data.drop C.length := by
    unfold compressBytesDirect
    rw [hpe]
    dsimp only
    rw [hviewc, henc]
  have hviewd : objd.compressedBuffer.data.take (sizeTOfJint (L1 : Int)) = C := by
    rw [hszL, hwire, hcdata, ← hL1, List.take_left]
  refine ⟨?_, ?_, ?_⟩
  · unfold compressBytesDirect
    rw [hpe]
    dsimp only
    rw [hviewc, henc]
    dsimp only
    rw [if_neg]
    · rw [jintOfNat_of_lt hL1b]
    · rintro ⟨h0, -⟩
      rw [jintOfNat_of_lt hL1b] at h0
      exact hL1nz (by exact_mod_cast h0)
  · unfold decompressBytesDirect
    rw [hpd]
    dsimp only
    rw [hviewd, hdec]
    dsimp only
    rw [if_neg]
    · rw [jintOfNat_of_lt hAlen]
    · rintro ⟨h0, -⟩
      rw [jintOfNat_of_lt hAlen] at h0
      exact hAnz (by exact_mod_cast h0)
  · unfold decompressBytesDirect
    rw [hpd]
    dsimp only
    rw [hviewd, hdec]
    dsimp only
    rw [List.take_left]

/-- A decompressor object wired to the output of the witness
compression: its compressed buffer holds exactly the bytes the
compressor left in its destination buffer. -/
def objdRT : DecompressorObj := ⟨⟨300, [65, 65, 65, 0, 0]⟩, ⟨400, [0, 0, 0, 0, 0]⟩, 8⟩

/-- Witness for C8: with the concrete copy codec, the 3-byte input
`[65, 65, 65]` compresses to itself and decompresses back to itself. -/
theorem c8_witness :
    ([65, 65, 65] : List Byte) ≠ [] ∧
    (compressBytesDirect idEnv gcW objcW 3).outcome = .ok 3 ∧
    (decompressBytesDirect idEnv gdW objdRT 3).outcome = .ok 3 ∧
    (decompressBytesDirect idEnv gdW objdRT 3).obj.decompressedBuffer.data.take 3 =
      [65, 65, 65] := by
  have h := c8_roundtrip idEnv gcW gdW objcW objdRT
    [65, 65, 65] [65, 65, 65] 3 2 3 rfl rfl (by decide) (by decide) rfl
    (by decide) (by decide) (by decide) (by decide) (by decide) (by decide)
  exact ⟨by decide, h.1.trans (by decide), h.2.1.trans (by decide),
    h.2.2.trans (by decide)⟩

end LzfseBridge
